import Mathlib

/-
Verification of the ethatomicswap command-line tool
(cmd/ethatomicswap/main.go) against its natural-language design
specification.

Strings are modelled as `List Char`.  The Go standard-library helpers
`net.SplitHostPort` / `net.JoinHostPort` that `normalizeAddress` depends
on are embedded from their stdlib sources.  External effects (the second
`flagset.Parse`, `rpc.Dial`, the JSON-RPC call made by
`initiateCmd.runCommand`) enter `run` as explicit oracle parameters, so
the theorems quantify over every possible outcome of those collaborators.
-/

namespace EthAtomicSwap

/-- Decidable equality on `Except`, needed to evaluate the embedded
functions on concrete inputs. -/
instance instDecEqExcept {ε α : Type} [DecidableEq ε] [DecidableEq α] :
    DecidableEq (Except ε α)
  | Except.ok a, Except.ok b =>
    if h : a = b then isTrue (by rw [h])
    else isFalse (by intro he; injection he; contradiction)
  | Except.ok _, Except.error _ => isFalse (by intro h; exact Except.noConfusion h)
  | Except.error _, Except.ok _ => isFalse (by intro h; exact Except.noConfusion h)
  | Except.error e, Except.error f =>
    if h : e = f then isTrue (by rw [h])
    else isFalse (by intro he; injection he; contradiction)

/-- Index of the first occurrence of a character in a character list
(model of the byte scan used by the Go net package). -/
def idxOf (c : Char) : List Char → Option Nat
  | [] => none
  | a :: as => if a = c then some 0 else (idxOf c as).map (· + 1)

/-- Index of the last occurrence of a character (Go net package helper
that scans from the end of the string). -/
def lastIdxOf (c : Char) (s : List Char) : Option Nat :=
  (idxOf c s.reverse).map (fun j => s.length - 1 - j)

/-- Address error of the Go net package: the offending address together
with the reason text. -/
structure AddrError where
  addr : List Char
  why : List Char
deriving DecidableEq

def missingPortMsg : List Char := "missing port in address".toList

def tooManyColonsMsg : List Char := "too many colons in address".toList

def missingCloseBracketMsg : List Char := "missing close bracket in address".toList

def unexpectedOpenBracketMsg : List Char := "unexpected open bracket in address".toList

def unexpectedCloseBracketMsg : List Char := "unexpected close bracket in address".toList

/-- Model of Go `net.SplitHostPort`: the port starts after the last
colon; a host containing colons must be bracketed; stray brackets are
rejected. -/
def splitHostPort (hostport : List Char) : Except AddrError (List Char × List Char) :=
  match lastIdxOf ':' hostport with
  | none => .error ⟨hostport, missingPortMsg⟩
  | some i =>
    match hostport with
    | '[' :: _ =>
      match idxOf ']' hostport with
      | none => .error ⟨hostport, missingCloseBracketMsg⟩
      | some e =>
        if e + 1 = hostport.length then .error ⟨hostport, missingPortMsg⟩
        else if e + 1 = i then
          if (idxOf '[' (hostport.drop 1)).isSome then
            .error ⟨hostport, unexpectedOpenBracketMsg⟩
          else if (idxOf ']' (hostport.drop (e + 1))).isSome then
            .error ⟨hostport, unexpectedCloseBracketMsg⟩
          else .ok ((hostport.drop 1).take (e - 1), hostport.drop (i + 1))
        else if hostport.get? (e + 1) = some ':' then
          .error ⟨hostport, tooManyColonsMsg⟩
        else .error ⟨hostport, missingPortMsg⟩
    | _ =>
      if (idxOf ':' (hostport.take i)).isSome then
        .error ⟨hostport, tooManyColonsMsg⟩
      else if (idxOf '[' hostport).isSome then
        .error ⟨hostport, unexpectedOpenBracketMsg⟩
      else if (idxOf ']' hostport).isSome then
        .error ⟨hostport, unexpectedCloseBracketMsg⟩
      else .ok (hostport.take i, hostport.drop (i + 1))

/-- Model of Go `net.JoinHostPort`: brackets the host when it contains a
colon. -/
def joinHostPort (host port : List Char) : List Char :=
  if (idxOf ':' host).isSome then '[' :: (host ++ (']' :: ':' :: port))
  else host ++ (':' :: port)

/-- Embedding of `normalizeAddress` (main.go lines 207 to 218): if the
address already splits as host and port it is rejoined as is; otherwise
the default port is appended and the result, when it now splits, is
returned with the scheme text prepended; if the second split also fails
the original split error is returned. -/
def normalizeAddress (addr defaultPort : List Char) : Except AddrError (List Char) :=
  match splitHostPort addr with
  | .ok (host, port) => .ok (joinHostPort host port)
  | .error origErr =>
    match splitHostPort (joinHostPort addr defaultPort) with
    | .error _ => .error origErr
    | .ok _ => .ok ("http://".toList ++ joinHostPort addr defaultPort)

/-- Embedding of `walletPort` (main.go lines 220 to 229): every branch
of the switch returns the same port string. -/
def walletPort (params : List Char) : List Char :=
  if params = "testnet".toList then "8545".toList
  else if params = "mainnet".toList then "8545".toList
  else "8545".toList

/-- The network-parameters argument that `run` passes to `walletPort`
(main.go line 165 passes the literal mainnet string; the testnet flag is
never consulted). -/
def networkParams (testnetFlag : Bool) : List Char :=
  "mainnet".toList

/-- The `secretSize` constant (main.go line 24). -/
def secretSize : Nat := 32

/-- Go `strings.HasPrefix(arg, "-")`: the argument starts with a dash. -/
def startsWithDash : List Char → Bool
  | '-' :: _ => true
  | _ => false

/-- The loop condition of `checkCmdArgLength` (main.go line 187): the
argument is treated as a flag when its length differs from one and it
starts with a dash. -/
def flagLike (arg : List Char) : Bool :=
  arg.length != 1 && startsWithDash arg

/-- The range loop of `checkCmdArgLength` (main.go lines 186 to 190):
returns the running index at the first flag-like argument, or the index
one past the end of the list. -/
def checkCmdArgLoop : Nat → List (List Char) → Nat
  | i, [] => i
  | i, arg :: rest => if flagLike arg then i else checkCmdArgLoop (i + 1) rest

/-- Embedding of `checkCmdArgLength` (main.go lines 182 to 192). -/
def checkCmdArgLength (args : List (List Char)) (required : Nat) : Nat :=
  if args.length < required then 0
  else checkCmdArgLoop 0 (args.take required)

/-- Restatement of the claimed behaviour of `checkCmdArgLength` in the
spec claim wording: the index of the first argument among the first
`required` that starts with a dash and has length other than one, or
`required` when none exists.  To be compared with `checkCmdArgLength`. -/
def checkCmdArgLengthSpec (args : List (List Char)) (required : Nat) : Nat :=
  if args.length < required then 0
  else ((args.take required).findIdx? flagLike).getD required

/-- The first dispatch switch of `run` (main.go lines 127 to 140):
required positional argument count per command word. -/
def cmdArgsFor (w : List Char) : Option Nat :=
  if w = "initiate".toList then some 2
  else if w = "participate".toList then some 3
  else if w = "redeem".toList then some 3
  else if w = "extractsecret".toList then some 2
  else if w = "auditcontract".toList then some 2
  else none

/-- The commands actually constructed by the second dispatch switch of
`run`: only the initiate case assigns a command value. -/
inductive Command where
  | initiateC
deriving DecidableEq

/-- The second dispatch switch of `run` (main.go lines 150 to 163): the
initiate case assigns a command; the participate, redeem, extractsecret
and auditcontract cases are empty, leaving the command interface nil
(`none`). -/
def dispatch (w : List Char) : Option Command :=
  if w = "initiate".toList then some Command.initiateC
  else if w = "participate".toList then none
  else if w = "redeem".toList then none
  else if w = "extractsecret".toList then none
  else if w = "auditcontract".toList then none
  else none

/-- RPC error values surfaced by the external client, modelled as their
message text. -/
abbrev RpcError := List Char

/-- The `Block` type (main.go lines 27 to 30). -/
structure Block where
  number : List Char
  hash : List Char
deriving DecidableEq

/-- The context deadline `run` hands to `runCommand` (main.go line 178
passes `context.Background()`, which carries no deadline). -/
def runCommandContextDeadline : Option Nat := none

/-- The deadline, in seconds, governing the JSON-RPC call inside
`initiateCmd.runCommand` (main.go line 196): a fresh ten-second timeout
over a background context, ignoring the caller-supplied context
`callerDeadline`. -/
def initiateCallTimeout (callerDeadline : Option Nat) : Option Nat :=
  some 10

/-- Embedding of `initiateCmd.runCommand` (main.go lines 194 to 205):
given the outcome of the `eth_getBlockByNumber` call, it either
propagates the RPC error or returns the lines it prints, which are
exactly the block number and the block hash. -/
def initiateRunCommand (rpcRes : Except RpcError Block) : Except RpcError (List (List Char)) :=
  match rpcRes with
  | .error e => .error e
  | .ok lastBlock => .ok [lastBlock.number, lastBlock.hash]

/-- The error values `run` can return, tagged by their format strings. -/
inductive RunError where
  | unknownCommand (w : List Char)
  | tooFewArguments (w : List Char)
  | unexpectedArgument
  | gethServerAddress (e : AddrError)
  | rpcConnect
deriving DecidableEq

/-- Outcome of one `run` invocation.  `usageOnly` is the empty-argument
return `(nil, true)`; `errUsage` and `errNoUsage` are error returns with
and without the usage flag; `panicNilCommand` marks reaching
`cmd.runCommand` with a nil command interface, which dereferences nil
and panics instead of returning; `done` is a completed `runCommand`
call carrying its optional error. -/
inductive RunOutcome where
  | usageOnly
  | errUsage (e : RunError)
  | errNoUsage (e : RunError)
  | panicNilCommand
  | done (e : Option RpcError)
deriving DecidableEq

/-- Dispatch from the constructed command to its `runCommand` result. -/
def runCommandOutcome : Command → Except RpcError Block → Option RpcError
  | Command.initiateC, rpcRes =>
    match initiateRunCommand rpcRes with
    | .ok _ => none
    | .error e => some e

/-- Embedding of `run` (main.go lines 120 to 180).  `args` is
`flagset.Args()` after the first parse; `nargAfter` is the oracle for
`flagset.NArg()` after the reparse of the tail `args[1+nArgs:]`;
`dialOk` is the outcome of `rpc.Dial`; `rpcRes` the outcome of the
JSON-RPC call a constructed command would make. -/
def run (testnet : Bool) (connectFlag : List Char) (args : List (List Char))
    (nargAfter : List (List Char) → Nat) (dialOk : Bool)
    (rpcRes : Except RpcError Block) : RunOutcome :=
  match args with
  | [] => .usageOnly
  | w :: rest =>
    match cmdArgsFor w with
    | none => .errUsage (.unknownCommand w)
    | some cmdArgs =>
      let nArgs := checkCmdArgLength rest cmdArgs
      if nArgs < cmdArgs then .errUsage (.tooFewArguments w)
      else if nargAfter (rest.drop nArgs) ≠ 0 then .errUsage .unexpectedArgument
      else
        let cmd := dispatch w
        match normalizeAddress connectFlag (walletPort (networkParams testnet)) with
        | .error e => .errUsage (.gethServerAddress e)
        | .ok _ =>
          if dialOk then
            match cmd with
            | none => .panicNilCommand
            | some c => .done (runCommandOutcome c rpcRes)
          else .errNoUsage .rpcConnect

/-- Embedding of `main` (main.go lines 107 to 118): maps the `run`
outcome to the exit code and whether the usage text is printed; `none`
when `run` panics, so control never reaches the exit logic and the
process aborts instead of exiting with code zero or one. -/
def mainResult : RunOutcome → Option (Nat × Bool)
  | RunOutcome.panicNilCommand => none
  | RunOutcome.usageOnly => some (1, true)
  | RunOutcome.errUsage _ => some (1, true)
  | RunOutcome.errNoUsage _ => some (1, false)
  | RunOutcome.done none => some (0, false)
  | RunOutcome.done (some _) => some (1, false)

/-- Helper: the range loop of `checkCmdArgLength` computes the first
index satisfying `flagLike`, offset by the running counter, with the
list length as the default. -/
theorem checkCmdArgLoop_eq_findIdx (l : List (List Char)) :
    ∀ i, checkCmdArgLoop i l = i + ((l.findIdx? flagLike).getD l.length) := by
  induction l with
  | nil => intro i; simp [checkCmdArgLoop]
  | cons a as ih =>
    intro i
    by_cases h : flagLike a
    · simp [checkCmdArgLoop, h]
    · simp only [checkCmdArgLoop, h, if_false, List.findIdx?_cons, Bool.false_eq_true,
        List.findIdx?_start_succ, Nat.zero_add, ih (i + 1), List.length_cons]
      cases hfd : as.findIdx? flagLike <;> simp [hfd] <;> omega

/-- Helper: the source `checkCmdArgLength` agrees everywhere with the
claim-side restatement `checkCmdArgLengthSpec`. -/
theorem checkCmdArgLength_eq_spec_all (args : List (List Char)) (required : Nat) :
    checkCmdArgLength args required = checkCmdArgLengthSpec args required := by
  unfold checkCmdArgLength checkCmdArgLengthSpec
  by_cases h : args.length < required
  · simp [h]
  · rw [if_neg h, if_neg h, checkCmdArgLoop_eq_findIdx]
    have hlen : (args.take required).length = required := by
      rw [List.length_take]; omega
    rw [hlen, Nat.zero_add]

/-- C10: checkCmdArgLength returns 0 whenever fewer arguments than
required are present; otherwise it returns the index of the first
argument among the first `required` that starts with a dash and has
length other than one, or `required` when no such argument exists; a
one-character dash argument is counted as positional. -/
theorem checkCmdArgLength_matches_claim :
    (∀ args required, checkCmdArgLength args required = checkCmdArgLengthSpec args required) ∧
    checkCmdArgLength ["-".toList, "x".toList] 2 = 2 :=
  ⟨checkCmdArgLength_eq_spec_all, by decide⟩

/-- C8: the secret-size constant of the program equals 32 bytes. -/
theorem secretSize_is_32 : secretSize = 32 := rfl

/-- C9: normalizeAddress is asymmetric in its scheme prefix: an input
that already splits as host and port is returned rejoined with nothing
prepended; an input that splits only after appending the default port is
returned with the scheme text prepended; when both splits fail the
original split error is returned. -/
theorem normalizeAddress_scheme_asymmetry (addr dp : List Char) :
    (∀ h p, splitHostPort addr = Except.ok (h, p) →
        normalizeAddress addr dp = Except.ok (joinHostPort h p)) ∧
    (∀ e, splitHostPort addr = Except.error e →
      (∀ hp, splitHostPort (joinHostPort addr dp) = Except.ok hp →
          normalizeAddress addr dp =
            Except.ok ("http://".toList ++ joinHostPort addr dp)) ∧
      (∀ e2, splitHostPort (joinHostPort addr dp) = Except.error e2 →
          normalizeAddress addr dp = Except.error e)) := by
  refine ⟨?_, ?_⟩
  · intro h p hs
    simp only [normalizeAddress, hs]
  · intro e hs
    refine ⟨?_, ?_⟩
    · intro hp h2
      simp only [normalizeAddress, hs, h2]
    · intro e2 h2
      simp only [normalizeAddress, hs, h2]

/-- Witness for C9 at concrete inputs: an address with a port is kept as
is, a bare host gains the default port and the scheme prefix, and an
address failing both splits yields its original error. -/
theorem normalizeAddress_scheme_asymmetry_witness :
    normalizeAddress "localhost:1".toList "8545".toList =
      Except.ok "localhost:1".toList ∧
    normalizeAddress "localhost".toList "8545".toList =
      Except.ok "http://localhost:8545".toList ∧
    normalizeAddress "]".toList "8545".toList =
      Except.error ⟨"]".toList, missingPortMsg⟩ := by
  refine ⟨?_, ?_, ?_⟩
  · have h := (normalizeAddress_scheme_asymmetry "localhost:1".toList "8545".toList).1
      "localhost".toList "1".toList (by decide)
    rw [h]; decide
  · have h := ((normalizeAddress_scheme_asymmetry "localhost".toList "8545".toList).2
      ⟨"localhost".toList, missingPortMsg⟩ (by decide)).1
      ("localhost".toList, "8545".toList) (by decide)
    rw [h]; decide
  · exact ((normalizeAddress_scheme_asymmetry "]".toList "8545".toList).2
      ⟨"]".toList, missingPortMsg⟩ (by decide)).2
      ⟨"]:8545".toList, unexpectedCloseBracketMsg⟩ (by decide)

/-- C1: an invocation of participate, redeem, extractsecret or
auditcontract that passes the positional argument count check, leaves no
unexpected trailing argument, normalizes the server address and dials
successfully, reaches `cmd.runCommand` with the command still nil, so
`run` panics on a nil interface instead of returning an error value. -/
theorem run_nil_command_panics (testnet : Bool) (connectFlag : List Char)
    (w : List Char) (rest : List (List Char)) (nargAfter : List (List Char) → Nat)
    (rpcRes : Except RpcError Block) (req : Nat)
    (hw : w = "participate".toList ∨ w = "redeem".toList ∨
          w = "extractsecret".toList ∨ w = "auditcontract".toList)
    (hreq : cmdArgsFor w = some req)
    (hlen : ¬ checkCmdArgLength rest req < req)
    (hnarg : nargAfter (rest.drop (checkCmdArgLength rest req)) = 0)
    (hconn : ∃ c, normalizeAddress connectFlag (walletPort (networkParams testnet)) =
        Except.ok c) :
    dispatch w = none ∧
    run testnet connectFlag (w :: rest) nargAfter true rpcRes =
      RunOutcome.panicNilCommand := by
  obtain ⟨c, hc⟩ := hconn
  have hd : dispatch w = none := by
    rcases hw with h | h | h | h <;> subst h <;> rfl
  refine ⟨hd, ?_⟩
  simp only [run, hreq, hd, hc, hnarg]
  rw [if_neg hlen]
  simp

/-- Witness for C1: the redeem command with three positional arguments
and a reachable local server reaches the nil command and panics. -/
theorem run_nil_command_panics_witness :
    dispatch "redeem".toList = none ∧
    run false "localhost".toList
      ["redeem".toList, "a".toList, "b".toList, "c".toList]
      (fun _ => 0) true (Except.ok ⟨[], []⟩) = RunOutcome.panicNilCommand :=
  run_nil_command_panics false "localhost".toList "redeem".toList
    ["a".toList, "b".toList, "c".toList] (fun _ => 0) (Except.ok ⟨[], []⟩) 3
    (Or.inr (Or.inl rfl)) (by decide) (by decide) (by decide)
    ⟨"http://localhost:8545".toList, by decide⟩

/-- C2 (code bug evaluation): a participate invocation with the required
three arguments and a successful dial makes `run` reach the nil command
and panic, so `main` never reaches its exit logic: no exit code 0 or 1
is produced, contradicting the specified exit-code contract. -/
theorem participate_invocation_aborts :
    run false "localhost".toList
      ["participate".toList, "a".toList, "b".toList, "c".toList]
      (fun _ => 0) true (Except.ok ⟨"1".toList, "0x0".toList⟩) =
      RunOutcome.panicNilCommand ∧
    mainResult RunOutcome.panicNilCommand = none :=
  ⟨by decide, rfl⟩

/-- C3: run accepts exactly the five commands initiate, participate,
redeem, extractsecret and auditcontract with required argument counts 2,
3, 3, 2 and 2; any other command word yields an unknown-command error
with usage requested; a recognized command with too few positional
arguments yields a too-few-arguments error with usage requested. -/
theorem run_accepts_exactly_five_commands :
    (cmdArgsFor "initiate".toList = some 2 ∧
     cmdArgsFor "participate".toList = some 3 ∧
     cmdArgsFor "redeem".toList = some 3 ∧
     cmdArgsFor "extractsecret".toList = some 2 ∧
     cmdArgsFor "auditcontract".toList = some 2) ∧
    (∀ w, cmdArgsFor w = none →
      ∀ testnet connectFlag rest nargAfter dialOk rpcRes,
        run testnet connectFlag (w :: rest) nargAfter dialOk rpcRes =
          RunOutcome.errUsage (RunError.unknownCommand w)) ∧
    (∀ w req, cmdArgsFor w = some req →
      ∀ testnet connectFlag rest nargAfter dialOk rpcRes,
        checkCmdArgLength rest req < req →
        run testnet connectFlag (w :: rest) nargAfter dialOk rpcRes =
          RunOutcome.errUsage (RunError.tooFewArguments w)) ∧
    (∀ w, cmdArgsFor w ≠ none →
      w = "initiate".toList ∨ w = "participate".toList ∨ w = "redeem".toList ∨
      w = "extractsecret".toList ∨ w = "auditcontract".toList) := by
  refine ⟨by decide, ?_, ?_, ?_⟩
  · intro w hw testnet connectFlag rest nargAfter dialOk rpcRes
    simp only [run, hw]
  · intro w req hreq testnet connectFlag rest nargAfter dialOk rpcRes hlt
    simp only [run, hreq]
    rw [if_pos hlt]
  · intro w hw
    unfold cmdArgsFor at hw
    split_ifs at hw with h1 h2 h3 h4 h5
    · exact Or.inl h1
    · exact Or.inr (Or.inl h2)
    · exact Or.inr (Or.inr (Or.inl h3))
    · exact Or.inr (Or.inr (Or.inr (Or.inl h4)))
    · exact Or.inr (Or.inr (Or.inr (Or.inr h5)))
    · exact absurd rfl hw

/-- Witness for C3: an unrecognized command word errors with usage, and
auditcontract with a single argument errors with too few arguments. -/
theorem run_accepts_exactly_five_commands_witness :
    run false "s".toList ["frobnicate".toList] (fun _ => 0) true
      (Except.ok ⟨[], []⟩) =
      RunOutcome.errUsage (RunError.unknownCommand "frobnicate".toList) ∧
    run false "s".toList ["auditcontract".toList, "x".toList] (fun _ => 0) true
      (Except.ok ⟨[], []⟩) =
      RunOutcome.errUsage (RunError.tooFewArguments "auditcontract".toList) := by
  constructor
  · exact run_accepts_exactly_five_commands.2.1 "frobnicate".toList (by decide)
      false "s".toList [] (fun _ => 0) true (Except.ok ⟨[], []⟩)
  · exact run_accepts_exactly_five_commands.2.2.1 "auditcontract".toList 2 (by decide)
      false "s".toList ["x".toList] (fun _ => 0) true (Except.ok ⟨[], []⟩) (by decide)

/-- C4 (code bug evaluation): initiateCmd.runCommand only queries the
latest block and prints its number and hash, or propagates the RPC
error; it generates no secret, computes no hash and builds no contract,
whereas the specification requires the initiate operation to do so. -/
theorem initiate_prints_block_only (b : Block) (e : RpcError) :
    initiateRunCommand (Except.ok b) = Except.ok [b.number, b.hash] ∧
    initiateRunCommand (Except.error e) = Except.error e :=
  ⟨rfl, rfl⟩

/-- C5 counterexample: when the caller supplies a three-second deadline
through the context parameter, the RPC call inside
initiateCmd.runCommand does not run under that deadline, so the deadline
is not caller-supplied. -/
theorem initiate_deadline_not_caller_supplied :
    ¬ initiateCallTimeout (some 3) = some 3 := by decide

/-- C5 amended: the RPC call made while running the initiate command is
bounded, but by a deadline fixed internally at ten seconds, and run
hands runCommand a background context carrying no deadline at all. -/
theorem initiate_call_deadline_fixed_ten :
    (∀ d, initiateCallTimeout d = some 10) ∧ runCommandContextDeadline = none :=
  ⟨fun _ => rfl, rfl⟩

/-- C6 counterexample: with the testnet flag set, the network-parameters
argument the tool passes to walletPort is not the testnet one. -/
theorem testnet_flag_not_selecting_testnet :
    ¬ networkParams true = "testnet".toList := by decide

/-- C6 amended: the testnet flag has no effect on the server connection
parameters: run always passes the mainnet string to walletPort, and
walletPort returns the same port for every network name anyway. -/
theorem testnet_flag_has_no_effect :
    (∀ b, networkParams b = "mainnet".toList) ∧
    (∀ p, walletPort p = "8545".toList) := by
  refine ⟨fun _ => rfl, ?_⟩
  intro p
  unfold walletPort
  split_ifs <;> rfl

/-- BuildError of the spec-modelled contract builder. -/
inductive BuildError where
  | invalidParameter
deriving DecidableEq

/-- ParseError of the spec-modelled contract parser. -/
inductive ScriptParseError where
  | malformedContract
deriving DecidableEq

/-- The four swap parameters committed to by a contract. -/
structure ContractParams where
  recipient : Nat
  refund : Nat
  secretHash : List Nat
  locktime : Nat
deriving DecidableEq

/-- Script tokens of the modelled HTLC locking-script template. -/
inductive ScriptTok where
  | opIf
  | opElse
  | opEndIf
  | opSha256
  | opEqualVerify
  | opCheckLockTimeVerify
  | opCheckSig
  | pushHash (h : List Nat)
  | pushAddr (a : Nat)
  | pushTime (t : Nat)
deriving DecidableEq

/-- Modelled from the spec: the chain-required secret-hash length. -/
def requiredSecretHashLen : Nat := 32

/-- Modelled from the spec: the minimum safety margin by which the
locktime must exceed the injected current time. -/
def minLocktimeMargin : Nat := 1

/-- Modelled from the spec: the canonical serialized HTLC script, one
redeem branch guarded by the secret hash paying the recipient and one
refund branch guarded by the locktime paying the refund address. -/
def contractScript (p : ContractParams) : List ScriptTok :=
  [ ScriptTok.opIf, ScriptTok.opSha256, ScriptTok.pushHash p.secretHash,
    ScriptTok.opEqualVerify, ScriptTok.pushAddr p.recipient,
    ScriptTok.opElse, ScriptTok.pushTime p.locktime,
    ScriptTok.opCheckLockTimeVerify, ScriptTok.pushAddr p.refund,
    ScriptTok.opEndIf, ScriptTok.opCheckSig ]

/-- Modelled from the spec: `buildContract` is absent from src (the
Contract Builder of spec section 4.2); it validates that the recipient
differs from the refund address, that the secret hash has the
chain-required length and that the locktime exceeds the injected
current time by the safety margin, then deterministically produces the
canonical serialized script. -/
def buildContract (recipient refund : Nat) (secretHash : List Nat)
    (locktime now : Nat) : Except BuildError (List ScriptTok) :=
  if recipient = refund then Except.error BuildError.invalidParameter
  else if secretHash.length ≠ requiredSecretHashLen then
    Except.error BuildError.invalidParameter
  else if locktime < now + minLocktimeMargin then
    Except.error BuildError.invalidParameter
  else Except.ok (contractScript ⟨recipient, refund, secretHash, locktime⟩)

/-- Modelled from the spec: `parseContract` is absent from src (the
Contract Parser of spec section 4.3); it decodes the script template,
failing when the opcodes do not match the expected HTLC shape. -/
def parseContract : List ScriptTok → Except ScriptParseError ContractParams
  | [ ScriptTok.opIf, ScriptTok.opSha256, ScriptTok.pushHash h,
      ScriptTok.opEqualVerify, ScriptTok.pushAddr r,
      ScriptTok.opElse, ScriptTok.pushTime t,
      ScriptTok.opCheckLockTimeVerify, ScriptTok.pushAddr f,
      ScriptTok.opEndIf, ScriptTok.opCheckSig ] =>
    if h.length ≠ requiredSecretHashLen then
      Except.error ScriptParseError.malformedContract
    else Except.ok ⟨r, f, h, t⟩
  | _ => Except.error ScriptParseError.malformedContract

/-- C7: for every valid input (one on which buildContract succeeds),
parseContract applied to the built contract recovers exactly the same
four parameters. -/
theorem buildContract_parseContract_roundtrip
    (recipient refund : Nat) (secretHash : List Nat) (locktime now : Nat)
    (c : List ScriptTok)
    (hbuild : buildContract recipient refund secretHash locktime now = Except.ok c) :
    parseContract c = Except.ok ⟨recipient, refund, secretHash, locktime⟩ := by
  unfold buildContract at hbuild
  split_ifs at hbuild with h1 h2 h3
  injection hbuild with hc
  subst hc
  simp only [contractScript, parseContract]
  rw [if_neg h2]

/-- Witness for C7 at a concrete valid input: distinct addresses, a
32-byte hash and a future locktime round-trip through build and parse. -/
theorem buildContract_parseContract_roundtrip_witness :
    parseContract (contractScript ⟨1, 2, List.replicate 32 0, 100⟩) =
      Except.ok ⟨1, 2, List.replicate 32 0, 100⟩ :=
  buildContract_parseContract_roundtrip 1 2 (List.replicate 32 0) 100 0
    (contractScript ⟨1, 2, List.replicate 32 0, 100⟩) (by decide)

end EthAtomicSwap
